import Mathlib

/-!
Shallow embedding of the Prep_portal_backend core: the conversation-proxy
pipeline of `src/index.js` and the authentication flow of the auth
controller and router. Pure data is modelled with Lean structures; the
HTTP handlers become functions from the request data (and the injected
collaborators: upstream client, credential store, secret verifier) to the
response they produce, together with the observable side effects the
claims mention (whether the upstream was called, how often the store was
queried, the new store contents).
-/

namespace PrepPortal

/-! ## Conversation proxy (src/index.js) -/

/-- Bool-valued substring test, mirroring JavaScript `String.includes`. -/
def strIncludes (s pat : String) : Bool :=
  (List.range (s.data.length + 1)).any fun i => pat.data.isPrefixOf (s.data.drop i)

/-- One client-supplied conversation turn, as the frontend sends it:
`\x7b role: "user" | "bot", message \x7d`. -/
structure ChatMsg where
  role : String
  message : String
deriving Repr, DecidableEq, Inhabited

/-- One text part of an upstream (Gemini) turn. -/
structure GeminiPart where
  text : String
deriving Repr, DecidableEq, Inhabited

/-- One upstream-formatted turn: `\x7b role, parts: [\x7b text \x7d] \x7d`. -/
structure GeminiTurn where
  role : String
  parts : List GeminiPart
deriving Repr, DecidableEq, Inhabited

/-- The history reshaping of `src/index.js` lines 62-65:
`(chatHistory || []).map(msg => (\x7b role: msg.role === "bot" ? "model" : msg.role, parts: [\x7b text: msg.message \x7d] \x7d))`. -/
def geminiFormattedHistory (chatHistory : Option (List ChatMsg)) : List GeminiTurn :=
  (chatHistory.getD []).map fun msg =>
    { role := if msg.role = "bot" then "model" else msg.role
      parts := [{ text := msg.message }] }

/-- An upstream failure as the catch block of `src/index.js` observes it:
an optional `message` and an optional numeric `status` field. -/
structure GeminiError where
  message : Option String
  status : Option Nat
deriving Repr, DecidableEq

/-- An HTTP response of the `/api/ask` handler: status code plus the one
string payload the JSON body carries (the `answer` text or the `error`
message). -/
structure AskResponse where
  status : Nat
  body : String
deriving Repr, DecidableEq

/-- JavaScript `error.status && error.status >= 500`: the status must be
present and truthy (nonzero) and at least 500. -/
def statusTruthyGe500 : Option Nat → Bool
  | some s => decide (s ≠ 0) && decide (500 ≤ s)
  | none => false

/-- The catch block condition `error.message.includes("API key not valid") || (error.status && error.status === 403)`. -/
def authStyle (e : GeminiError) : Bool :=
  (match e.message with
   | some m => strIncludes m "API key not valid"
   | none => false) || e.status == some 403

/-- The catch block condition `error.message.includes("quota") || (error.status && error.status === 429)`. -/
def quotaStyle (e : GeminiError) : Bool :=
  (match e.message with
   | some m => strIncludes m "quota"
   | none => false) || e.status == some 429

/-- The catch block condition for the 502 branch: fetch-failure message or
truthy status at least 500. -/
def fetchFailStyle (e : GeminiError) : Bool :=
  (match e.message with
   | some m => strIncludes m "[GoogleGenerativeAI Error]: Error fetching from"
   | none => false) || statusTruthyGe500 e.status

/-- The catch block of the `/api/ask` handler (`src/index.js` lines 83-98).
`if (error.message)` is a JavaScript truthiness test, false for an absent
and for an empty message: only an error with a non-empty message enters the
classified branches, which run in source order — 401, then 429, then 502,
then 500. Otherwise the handler calls `next(error)` and the global error
handler answers 500 `Internal server error.` (lines 103-106). -/
def classifyGeminiError (e : GeminiError) : AskResponse :=
  match e.message with
  | some msg =>
    if msg == "" then
      ⟨500, "Internal server error."⟩
    else if authStyle e then
      ⟨401, "Invalid API Key or insufficient permissions. Please check your .env file and Google Cloud Console."⟩
    else if quotaStyle e then
      ⟨429, "API Quota exceeded. Please check your Google Cloud Console."⟩
    else if fetchFailStyle e then
      ⟨502, "Failed to communicate with Gemini service: " ++ msg⟩
    else
      ⟨500, "Failed to get answer from Gemini: " ++ msg⟩
  | none => ⟨500, "Internal server error."⟩

/-- JavaScript falsiness of an optional string: absent, null or empty. -/
def isFalsy : Option String → Bool
  | none => true
  | some s => s == ""

/-- Outcome of one `/api/ask` request: the response sent and whether the
upstream service was called. -/
structure AskResult where
  response : AskResponse
  upstreamCalled : Bool
deriving Repr, DecidableEq

/-- The POST `/api/ask` handler (`src/index.js` lines 46-99).
`modelInit` is whether the Gemini model object was initialized at startup
(false when the API key is absent or initialization threw); `upstream` is
the injected upstream call (startChat + sendMessage + response.text),
returning the answer text or the error the catch block receives. -/
def askHandler (modelInit : Bool) (question : Option String)
    (chatHistory : Option (List ChatMsg))
    (upstream : List GeminiTurn → String → Except GeminiError String) : AskResult :=
  if modelInit = false then
    { response := ⟨503, "Gemini service is unavailable due to a configuration error. Please check server logs."⟩
      upstreamCalled := false }
  else if isFalsy question then
    { response := ⟨400, "Question is required"⟩, upstreamCalled := false }
  else
    match upstream (geminiFormattedHistory chatHistory) (question.getD "") with
    | .ok text => { response := ⟨200, text⟩, upstreamCalled := true }
    | .error e => { response := classifyGeminiError e, upstreamCalled := true }

/-! ## Authentication flow (auth controller, auth router) -/

/-- A persisted User record of the Credential Store. The `password` field
holds the stored (hashed) secret; the store excludes it from query results
unless selected explicitly. -/
structure UserRec where
  id : Nat
  name : String
  email : String
  password : String
deriving Repr, DecidableEq, Inhabited

/-- The public projection of a User, as the controller serializes it:
`\x7b id, name, email \x7d`. -/
structure PublicProfile where
  id : Nat
  name : String
  email : String
deriving Repr, DecidableEq, Inhabited

/-- A bearer token. Modelled from the spec: the Token Service (the external
`jsonwebtoken` library) issues a signed token whose subject claim equals the
given user identifier; signature and expiry are abstracted away since no
claim here depends on them. -/
structure Token where
  subject : Nat
deriving Repr, DecidableEq

/-- Modelled from the spec: `jwt.sign(\x7b id: user._id \x7d, secret, ...)` of the
external `jsonwebtoken` library produces a token whose subject claim is the
given identifier. -/
def jwtSign (id : Nat) : Token := ⟨id⟩

/-- An HTTP response of the auth endpoints. Optional fields are present in
the JSON body exactly when they are `some`: the global error handler body is
`\x7b error \x7d` with no `success` key, the controller bodies carry
`success` and either `error` or `token` plus `data`. -/
structure AuthResponse where
  status : Nat
  success : Option Bool
  error : Option String
  token : Option Token
  data : Option PublicProfile
deriving Repr, DecidableEq

/-- The JSON keys a serialized `AuthResponse` body contains, mirroring the
literal response objects the controller and the global handler build. -/
def responseKeys (r : AuthResponse) : List String :=
  (match r.success with | some _ => ["success"] | none => []) ++
  (match r.error with | some _ => ["error"] | none => []) ++
  (match r.token with | some _ => ["token"] | none => []) ++
  (match r.data with | some _ => ["data.id", "data.name", "data.email"] | none => [])

/-- `User.findOne(\x7b email \x7d)`: first record with the given email. -/
def findByEmail (store : List UserRec) (email : String) : Option UserRec :=
  store.find? fun u => u.email == email

/-- `User.findById(id)`: first record with the given identifier. The secret
is excluded from the result by the store default (per the spec, the store
returns the secret only when selected explicitly, as login does). -/
def findById (store : List UserRec) (i : Nat) : Option UserRec :=
  store.find? fun u => u.id == i

/-- The login controller (auth controller, `exports.login`). `matchPassword`
is modelled from the spec since `models/User` is absent from the sources:
hash-based verification of the entered password against the stored secret,
abstracted as an arbitrary Bool-valued function. The second component
counts Credential Store queries made. -/
def login (matchPassword : String → String → Bool) (store : List UserRec)
    (email password : Option String) : AuthResponse × Nat :=
  if isFalsy email || isFalsy password then
    (⟨400, some false, some "Please provide email and password", none, none⟩, 0)
  else
    match findByEmail store (email.getD "") with
    | none => (⟨401, some false, some "Invalid credentials", none, none⟩, 1)
    | some u =>
      if matchPassword (password.getD "") u.password then
        (⟨200, some true, none, some (jwtSign u.id), some ⟨u.id, u.name, u.email⟩⟩, 1)
      else
        (⟨401, some false, some "Invalid credentials", none, none⟩, 1)

/-- Modelled from the spec: the `validateLogin` middleware
(`Middlewares/AuthValidation`, absent from the sources) checks that both
fields are present, else fails with BadRequest
("Please provide email and password") before the store is touched;
`none` means the request passes through to the controller. -/
def validateLogin (email password : Option String) : Option AuthResponse :=
  if isFalsy email || isFalsy password then
    some ⟨400, some false, some "Please provide email and password", none, none⟩
  else
    none

/-- POST `/api/auth/login` as routed: `validateLogin` then the controller. -/
def loginRoute (matchPassword : String → String → Bool) (store : List UserRec)
    (email password : Option String) : AuthResponse × Nat :=
  match validateLogin email password with
  | some r => (r, 0)
  | none => login matchPassword store email password

/-- Modelled from the spec: the Credential Store `User.create`
(`models/User`, absent from the sources) fails with Conflict if the email is
already present, otherwise persists a new User whose secret is stored as a
hash; the fresh opaque identifier is supplied by the caller. -/
def createUser (hash : String → String) (newId : Nat) (store : List UserRec)
    (name email password : String) : Except Unit (UserRec × List UserRec) :=
  if store.any fun u => u.email == email then
    .error ()
  else
    let u : UserRec := ⟨newId, name, email, hash password⟩
    .ok (u, store ++ [u])

/-- Outcome of one register request: the response and the store afterwards. -/
structure RegisterResult where
  response : AuthResponse
  store : List UserRec
deriving Repr, DecidableEq

/-- The register controller (auth controller, `exports.register`). On store
failure the `catch` forwards the error with `next(err)` to the global error
handler of `src/index.js` lines 103-106, which answers
500 `\x7b error: "Internal server error." \x7d` for every error; on success it
answers 201 with a token and the public profile. -/
def register (hash : String → String) (newId : Nat) (store : List UserRec)
    (name email password : String) : RegisterResult :=
  match createUser hash newId store name email password with
  | .error _ => ⟨⟨500, none, some "Internal server error.", none, none⟩, store⟩
  | .ok (u, store2) =>
    ⟨⟨201, some true, none, some (jwtSign u.id), some ⟨u.id, u.name, u.email⟩⟩, store2⟩

/-- The bearer credential a request to a protected route presents, as the
token verifier sees it: either a token that verifies with some subject
claim, or one that fails verification (malformed, bad signature, expired). -/
inductive Presented where
  | valid (subject : Nat)
  | invalid
deriving Repr, DecidableEq

/-- Modelled from the spec: the `protect` middleware (`Middlewares/Auth`,
absent from the sources) implements `identify` — Token Service verify, then
User lookup by the subject claim; fails with Unauthenticated (401) if the
token is invalid and with NotFound (404) if the subject no longer resolves
to a User. -/
def protect (store : List UserRec) (cred : Presented) : Except AuthResponse UserRec :=
  match cred with
  | .invalid => .error ⟨401, some false, some "Unauthenticated", none, none⟩
  | .valid sub =>
    match findById store sub with
    | none => .error ⟨404, some false, some "NotFound", none, none⟩
    | some u => .ok u

/-- The getMe controller (auth controller, `exports.getMe`):
`User.findById(req.user.id)` then 200 with the record as `data` (the secret
excluded by the store default). -/
def getMe (store : List UserRec) (userId : Nat) : AuthResponse :=
  ⟨200, some true, none, none, (findById store userId).map fun u => ⟨u.id, u.name, u.email⟩⟩

/-- GET `/api/auth/me` as routed: `protect` then `getMe`. -/
def meRoute (store : List UserRec) (cred : Presented) : AuthResponse :=
  match protect store cred with
  | .error r => r
  | .ok u => getMe store u.id

/-! ## Shared helper lemmas -/

/-- No serialized auth response body contains a `password` key: the
controller bodies carry only `success`, `error`, `token` and the public
`data` fields. -/
theorem responseKeys_no_password (r : AuthResponse) : "password" ∉ responseKeys r := by
  rcases r with ⟨s, su, er, tk, da⟩
  cases su <;> cases er <;> cases tk <;> cases da <;> simp [responseKeys]

/-! ## Claim theorems -/

/-- Claim C5: if the upstream API key was absent or the upstream client
failed to initialize at startup, every call to `/api/ask` returns HTTP 503
without attempting any network call to the upstream service. -/
theorem ask_unconfigured_always_503 (question : Option String)
    (chatHistory : Option (List ChatMsg))
    (upstream : List GeminiTurn → String → Except GeminiError String) :
    askHandler false question chatHistory upstream =
      ⟨⟨503, "Gemini service is unavailable due to a configuration error. Please check server logs."⟩,
        false⟩ := rfl

/-- Claim C4, counterexample: an ask call with an empty question does not
always return 400 — when the upstream model is uninitialized the 503 guard
fires first, so the response is 503, not 400. -/
theorem ask_empty_question_cex :
    isFalsy (some "") = true ∧
    (askHandler false (some "") none fun _ _ => .ok "a").response.status = 503 ∧
    (askHandler false (some "") none fun _ _ => .ok "a").response.status ≠ 400 := by
  refine ⟨rfl, rfl, by decide⟩

/-- Claim C4, amended: when the upstream model is initialized, every ask
call with an empty or absent question returns HTTP 400 "Question is
required" with no upstream call attempted; and whatever the model state,
an empty or absent question never reaches the upstream. -/
theorem ask_empty_question_400 (question : Option String)
    (chatHistory : Option (List ChatMsg))
    (upstream : List GeminiTurn → String → Except GeminiError String)
    (hq : isFalsy question = true) :
    askHandler true question chatHistory upstream =
      ⟨⟨400, "Question is required"⟩, false⟩ ∧
    ∀ modelInit, (askHandler modelInit question chatHistory upstream).upstreamCalled = false := by
  constructor
  · simp [askHandler, hq]
  · intro modelInit
    cases modelInit <;> simp [askHandler, hq]

/-- Witness for C4 at a concrete empty-question request. -/
theorem ask_empty_question_400_witness :
    askHandler true (some "") none (fun _ _ => Except.ok "a") =
      ⟨⟨400, "Question is required"⟩, false⟩ :=
  (ask_empty_question_400 (some "") none (fun _ _ => Except.ok "a") (by decide)).1

/-- Claim C10: an absent chatHistory is treated as the empty history — the
reshaped history is `[]`, the handler behaves exactly as with an explicit
empty history, and the upstream call is still attempted (absence is not a
validation error). -/
theorem ask_absent_history_empty (q : String)
    (upstream : List GeminiTurn → String → Except GeminiError String)
    (hq : q ≠ "") :
    geminiFormattedHistory none = [] ∧
    askHandler true (some q) none upstream = askHandler true (some q) (some []) upstream ∧
    (askHandler true (some q) none upstream).upstreamCalled = true := by
  have hfq : isFalsy (some q) = false := by simp [isFalsy, hq]
  refine ⟨rfl, rfl, ?_⟩
  cases h : upstream (geminiFormattedHistory none) q <;>
    simp [askHandler, hfq, h]

/-- Witness for C10 at a concrete request without a history field. -/
theorem ask_absent_history_empty_witness :
    (askHandler true (some "hi") none fun _ _ => Except.ok "ans").upstreamCalled = true :=
  (ask_absent_history_empty "hi" (fun _ _ => Except.ok "ans") (by decide)).2.2

/-- Claim C3: reshaping a client history preserves its length and order,
wraps each turn text unchanged into `parts := [\x7b text \x7d]`, and maps the
client assistant role (sent as "bot") to the upstream "model" role, leaving
every other role string unchanged. -/
theorem history_reshape_pointwise (hist : List ChatMsg) :
    (geminiFormattedHistory (some hist)).length = hist.length ∧
    ∀ i : Nat, i < hist.length →
      (geminiFormattedHistory (some hist)).getD i default =
        { role := if (hist.getD i default).role = "bot" then "model"
                  else (hist.getD i default).role
          parts := [{ text := (hist.getD i default).message }] } := by
  constructor
  · simp [geminiFormattedHistory]
  · intro i hi
    have hlen : i < (geminiFormattedHistory (some hist)).length := by
      simpa [geminiFormattedHistory] using hi
    rw [List.getD_eq_getElem _ _ hlen, List.getD_eq_getElem _ _ hi]
    simp [geminiFormattedHistory]

/-- Witness for C3 on the spec example history. -/
theorem history_reshape_pointwise_witness :
    (geminiFormattedHistory (some [⟨"user", "hi"⟩, ⟨"bot", "hello"⟩])).getD 1 default =
      ⟨"model", [⟨"hello"⟩]⟩ := by
  have h := (history_reshape_pointwise [⟨"user", "hi"⟩, ⟨"bot", "hello"⟩]).2 1 (by decide)
  simpa using h

/-- Claim C1, counterexample: an upstream failure whose message contains
"quota" but whose status is 403 is answered 401, not 429 (the
unauthenticated branch is checked first); the 429 body contains "Quota",
not the lowercase "quota"; and an error carrying an empty message fails the
`if (error.message)` truthiness test and is answered 500 via the global
handler, not 401 despite its 403 status. -/
theorem ask_upstream_error_classified_cex :
    quotaStyle ⟨some "quota", some 403⟩ = true ∧
    (askHandler true (some "q") none fun _ _ => .error ⟨some "quota", some 403⟩).response.status
      = 401 ∧
    (askHandler true (some "q") none fun _ _ => .error ⟨some "quota", some 403⟩).response.status
      ≠ 429 ∧
    quotaStyle ⟨some "quota exceeded", none⟩ = true ∧
    strIncludes (classifyGeminiError ⟨some "quota exceeded", none⟩).body "quota" = false ∧
    classifyGeminiError ⟨some "", some 403⟩ = ⟨500, "Internal server error."⟩ := by
  refine ⟨by decide, by decide, by decide, by decide, by decide, by decide⟩

/-- Claim C1, amended: for every upstream failure carrying a truthy
(non-empty) message, the catch block classifies it in source order —
unauthenticated-style first (message contains "API key not valid" or status
403, answered 401), then quota-style (message contains "quota" or status
429, answered 429 with a body containing "Quota"), then unreachable
(fetch-failure message or truthy status at least 500, answered 502), and
any remaining classified error is answered 500; an error whose message is
empty or absent instead falls through to the global handler's
500 `Internal server error.`. -/
theorem ask_upstream_error_classified (e : GeminiError) (m q : String)
    (chatHistory : Option (List ChatMsg))
    (hm : e.message = some m) (hmne : m ≠ "") (hq : q ≠ "") :
    (authStyle e = true →
      (askHandler true (some q) chatHistory fun _ _ => .error e).response.status = 401) ∧
    (authStyle e = false → quotaStyle e = true →
      (askHandler true (some q) chatHistory fun _ _ => .error e).response.status = 429 ∧
      strIncludes (askHandler true (some q) chatHistory fun _ _ => .error e).response.body
        "Quota" = true) ∧
    (authStyle e = false → quotaStyle e = false → fetchFailStyle e = true →
      (askHandler true (some q) chatHistory fun _ _ => .error e).response.status = 502) ∧
    (authStyle e = false → quotaStyle e = false → fetchFailStyle e = false →
      (askHandler true (some q) chatHistory fun _ _ => .error e).response.status = 500) := by
  have hfq : isFalsy (some q) = false := by simp [isFalsy, hq]
  have hmb : (m == "") = false := by simpa using hmne
  have hr : (askHandler true (some q) chatHistory fun _ _ => .error e).response =
      classifyGeminiError e := by
    simp [askHandler, hfq]
  rw [hr]
  refine ⟨?_, ?_, ?_, ?_⟩
  · intro ha
    simp [classifyGeminiError, hm, hmb, ha]
  · intro ha hqt
    have hc : classifyGeminiError e =
        ⟨429, "API Quota exceeded. Please check your Google Cloud Console."⟩ := by
      simp [classifyGeminiError, hm, hmb, ha, hqt]
    rw [hc]
    exact ⟨rfl, by decide⟩
  · intro ha hqt hf
    simp [classifyGeminiError, hm, hmb, ha, hqt, hf]
  · intro ha hqt hf
    simp [classifyGeminiError, hm, hmb, ha, hqt, hf]

/-- Witness for C1 on a concrete quota-style failure. -/
theorem ask_upstream_error_classified_witness :
    (askHandler true (some "q") none fun _ _ =>
        .error ⟨some "quota exceeded", none⟩).response.status = 429 := by
  have h := (ask_upstream_error_classified ⟨some "quota exceeded", none⟩ "quota exceeded" "q"
    none rfl (by decide) (by decide)).2.1 (by decide) (by decide)
  exact h.1

/-- Claim C2: whenever the email is unknown to the store or the secret
verification fails, login produces the identical response — 401 with
exactly "Invalid credentials" — so the two failure causes are
indistinguishable to an observer. -/
theorem login_uniform_invalid_credentials
    (matchPassword : String → String → Bool) (store : List UserRec)
    (email password : String) (he : email ≠ "") (hp : password ≠ "")
    (hfail : findByEmail store email = none ∨
      ∃ u, findByEmail store email = some u ∧ matchPassword password u.password = false) :
    loginRoute matchPassword store (some email) (some password) =
      (⟨401, some false, some "Invalid credentials", none, none⟩, 1) := by
  have hfe : isFalsy (some email) = false := by simp [isFalsy, he]
  have hfp : isFalsy (some password) = false := by simp [isFalsy, hp]
  rcases hfail with h | ⟨u, hu, hmp⟩
  · simp [loginRoute, validateLogin, login, hfe, hfp, h]
  · simp [loginRoute, validateLogin, login, hfe, hfp, hu, hmp]

/-- Witness for C2 at a concrete unknown email. -/
theorem login_uniform_invalid_credentials_witness :
    loginRoute (fun p h => p == h) [⟨1, "Ana", "a@x.com", "H"⟩] (some "b@x.com") (some "pw") =
      (⟨401, some false, some "Invalid credentials", none, none⟩, 1) :=
  login_uniform_invalid_credentials (fun p h => p == h) [⟨1, "Ana", "a@x.com", "H"⟩]
    "b@x.com" "pw" (by decide) (by decide) (Or.inl (by decide))

/-- Claim C6: a login request missing the email or the password is answered
HTTP 400 "Please provide email and password" and the Credential Store is
never queried (the query count is 0). -/
theorem login_missing_fields_400
    (matchPassword : String → String → Bool) (store : List UserRec)
    (email password : Option String)
    (h : (isFalsy email || isFalsy password) = true) :
    loginRoute matchPassword store email password =
      (⟨400, some false, some "Please provide email and password", none, none⟩, 0) := by
  simp [loginRoute, validateLogin, h]

/-- Witness for C6 at a concrete request with no email. -/
theorem login_missing_fields_400_witness :
    loginRoute (fun _ _ => true) [] none (some "pw") =
      (⟨400, some false, some "Please provide email and password", none, none⟩, 0) :=
  login_missing_fields_400 (fun _ _ => true) [] none (some "pw") (by decide)

/-- Claim C7: on GET `/api/auth/me`, an invalid bearer token yields 401
Unauthenticated; a valid token whose subject no longer resolves to a User
yields NotFound (404); and on success the resolved User is returned with
the secret excluded (only id, name, email). -/
theorem me_route_spec (store : List UserRec) (cred : Presented) :
    (cred = .invalid →
      meRoute store cred = ⟨401, some false, some "Unauthenticated", none, none⟩) ∧
    (∀ sub, cred = .valid sub → findById store sub = none →
      meRoute store cred = ⟨404, some false, some "NotFound", none, none⟩) ∧
    (∀ sub u, cred = .valid sub → findById store sub = some u →
      meRoute store cred = ⟨200, some true, none, none, some ⟨u.id, u.name, u.email⟩⟩) := by
  refine ⟨?_, ?_, ?_⟩
  · rintro rfl
    rfl
  · rintro sub rfl h
    simp [meRoute, protect, h]
  · rintro sub u rfl h
    have hfind : store.find? (fun v => v.id == sub) = some u := h
    have hbeq := List.find?_some hfind
    have hid : u.id = sub := by simpa using hbeq
    simp [meRoute, protect, getMe, h, hid]

/-- Witness for C7 at a concrete valid token over a one-user store. -/
theorem me_route_spec_witness :
    meRoute [⟨1, "Ana", "a@x.com", "H"⟩] (.valid 1) =
      ⟨200, some true, none, none, some ⟨1, "Ana", "a@x.com"⟩⟩ := by
  have h := (me_route_spec [⟨1, "Ana", "a@x.com", "H"⟩] (.valid 1)).2.2 1
    ⟨1, "Ana", "a@x.com", "H"⟩ rfl (by decide)
  simpa using h

/-- Claim C8, divergence exhibited: registering a duplicate email makes the
store raise Conflict, which the controller catch forwards to the global
error handler — the response is HTTP 500 "Internal server error.", not a
4xx, although no new User is created. -/
theorem register_duplicate_email_500 :
    register (fun s => s) 2 [⟨1, "Ana", "a@x.com", "h"⟩] "Bob" "a@x.com" "pw" =
      ⟨⟨500, none, some "Internal server error.", none, none⟩,
        [⟨1, "Ana", "a@x.com", "h"⟩]⟩ ∧
    ¬ (register (fun s => s) 2 [⟨1, "Ana", "a@x.com", "h"⟩] "Bob" "a@x.com" "pw").response.status
      < 500 := by
  refine ⟨by decide, by decide⟩

/-- Claim C9: a registration with a fresh email succeeds with HTTP 201,
`success = true`, a token whose subject claim equals the new User
identifier, and the public profile data; the new User is persisted; and no
response body of register, login or get-current-user ever carries a
`password` key. -/
theorem register_fresh_success (hash : String → String) (newId : Nat) (store : List UserRec)
    (name email password : String)
    (hfresh : (store.any fun u => u.email == email) = false) :
    (register hash newId store name email password).response.status = 201 ∧
    (register hash newId store name email password).response.success = some true ∧
    (register hash newId store name email password).response.token = some ⟨newId⟩ ∧
    (register hash newId store name email password).response.data = some ⟨newId, name, email⟩ ∧
    (register hash newId store name email password).store =
      store ++ [⟨newId, name, email, hash password⟩] ∧
    "password" ∉ responseKeys (register hash newId store name email password).response ∧
    (∀ mp s e p, "password" ∉ responseKeys (loginRoute mp s e p).1) ∧
    (∀ s c, "password" ∉ responseKeys (meRoute s c)) := by
  have hreg : register hash newId store name email password =
      ⟨⟨201, some true, none, some ⟨newId⟩, some ⟨newId, name, email⟩⟩,
        store ++ [⟨newId, name, email, hash password⟩]⟩ := by
    simp [register, createUser, jwtSign, hfresh]
  rw [hreg]
  exact ⟨rfl, rfl, rfl, rfl, rfl, responseKeys_no_password _,
    fun mp s e p => responseKeys_no_password _, fun s c => responseKeys_no_password _⟩

/-- Witness for C9 at a concrete fresh registration. -/
theorem register_fresh_success_witness :
    (register (fun s => s) 1 [] "Ana" "a@x.com" "secret123").response.status = 201 ∧
    (register (fun s => s) 1 [] "Ana" "a@x.com" "secret123").response.token = some ⟨1⟩ := by
  have h := register_fresh_success (fun s => s) 1 [] "Ana" "a@x.com" "secret123" (by decide)
  exact ⟨h.1, h.2.2.1⟩

end PrepPortal
